import Mathlib

/-!
Verification of the MoviWeb-App repository against its specification.

The development shallowly embeds, in Lean, the parts of the repository the
claims are about:

* `data_models.py` — the three tables User, Movie, UserMovie become row
  structures, and the whole database becomes a `DB` state record (lists of
  rows plus the autoincrement counters of the three primary keys).
* `datamanager/data_manager_sqlite.py` — each CRUD method of the
  `DataManagerSQLite` class becomes a pure function from a `DB` state to a
  result and a new `DB` state.  SQLAlchemy's `filter_by(...).first()` is
  `List.find?`, `.all()` is `List.filter`, `session.delete` removes the row
  with the given primary key, `session.add` + `commit` appends a row with the
  next autoincrement id.  A Python code path that raises an uncaught
  exception is modelled by an `Option`-`none` result.
* `app.py` — the update-movie route handler (fetch the ORM object, overwrite
  the fields present in the form, then `update_movie` commits the pending
  mutation) becomes `app_update_movie`.
* `omdb_data_fetcher.py` — the retry loop of `_get_movie_info` becomes a
  fuel-indexed recursion over an abstract stream of per-attempt HTTP
  outcomes, recording the number of requests made and the delays slept.
* `app_csr.py` — the request-body validation of the JSON add-movie and
  update-rating POST handlers, over a small JSON value type.

Ratings are modelled as rational numbers: the repository only stores and
compares them, never computes with them.
-/

namespace MoviWeb

/-! ## data_models.py -/

/-- A row of the `users` table (`class User`): primary key `user_id`
(autoincrement), `user_name`, optional `avatar_url`. -/
structure UserRow where
  user_id : Nat
  user_name : String
  avatar_url : Option String
deriving DecidableEq, Repr

/-- A row of the `movies` table (`class Movie`): primary key `movie_id`
(autoincrement) plus the title and metadata columns.  Note: the model has
no `rating` column; the per-pair rating lives on `UserMovie`. -/
structure MovieRow where
  movie_id : Nat
  movie_name : String
  year : Int
  director : String
  genre : String
  poster_url : String
  plot : String
deriving DecidableEq, Repr

/-- A row of the `user_movies` association table (`class UserMovie`):
primary key `id` (autoincrement), foreign keys `user_id` and `movie_id`,
and the nullable per-pair `rating` column. -/
structure UserMovieRow where
  id : Nat
  user_id : Nat
  movie_id : Nat
  rating : Option Rat
deriving DecidableEq, Repr

/-- The data of a not-yet-inserted `Movie` object (no primary key assigned
yet, as produced by the OMDb fetcher or a registration form). -/
structure MovieData where
  movie_name : String
  year : Int
  director : String
  genre : String
  poster_url : String
  plot : String
deriving DecidableEq, Repr

/-- The data of a not-yet-inserted `User` object. -/
structure UserData where
  user_name : String
  avatar_url : Option String
deriving DecidableEq, Repr

/-- The state of the SQLite database: the three tables plus the next
autoincrement value of each primary key. -/
structure DB where
  users : List UserRow
  movies : List MovieRow
  user_movies : List UserMovieRow
  next_user_id : Nat
  next_movie_id : Nat
  next_um_id : Nat
deriving DecidableEq, Repr

/-- Well-formedness of a database state, as guaranteed by the SQLite schema
of `data_models.py`: primary keys are pairwise distinct and below their
autoincrement counter, and the `movie_id` foreign key of every association
references an existing `movies` row. -/
def DB.WF (s : DB) : Prop :=
  s.users.Pairwise (fun a b => a.user_id ≠ b.user_id) ∧
  s.movies.Pairwise (fun a b => a.movie_id ≠ b.movie_id) ∧
  s.user_movies.Pairwise (fun a b => a.id ≠ b.id) ∧
  (∀ u ∈ s.users, u.user_id < s.next_user_id) ∧
  (∀ m ∈ s.movies, m.movie_id < s.next_movie_id) ∧
  (∀ um ∈ s.user_movies, um.id < s.next_um_id) ∧
  (∀ um ∈ s.user_movies, ∃ m ∈ s.movies, m.movie_id = um.movie_id)

/-! ## datamanager/data_manager_sqlite.py -/

namespace DataManagerSQLite

/-- `get_user_name`: `User.query.filter_by(user_id=user_id).first()`,
returning the name, or `None` when the user does not exist. -/
def get_user_name (s : DB) (user_id : Nat) : Option String :=
  (s.users.find? (fun u => u.user_id == user_id)).map (fun u => u.user_name)

/-- `get_movie`: `Movie.query.filter_by(movie_id=movie_id).first()`. -/
def get_movie (s : DB) (movie_id : Nat) : Option MovieRow :=
  s.movies.find? (fun m => m.movie_id == movie_id)

/-- `get_all_movies`: `Movie.query.all()`. -/
def get_all_movies (s : DB) : List MovieRow :=
  s.movies

/-- `get_user_movies`: all associations of a user, joined with the movie
row through the `movie_relation` backref, paired with the rating. -/
def get_user_movies (s : DB) (user_id : Nat) : List (Option MovieRow × Option Rat) :=
  (s.user_movies.filter (fun um => um.user_id == user_id)).map
    (fun um => (s.movies.find? (fun m => m.movie_id == um.movie_id), um.rating))

/-- `add_user`: look up an existing user by `user_name`; if present return
`False` and leave the database unchanged, else insert the new row and
return `True`. -/
def add_user (s : DB) (new_user : UserData) : Bool × DB :=
  match s.users.find? (fun u => u.user_name == new_user.user_name) with
  | some _ => (false, s)
  | none =>
      (true,
        { s with
            users := s.users ++
              [{ user_id := s.next_user_id,
                 user_name := new_user.user_name,
                 avatar_url := new_user.avatar_url }],
            next_user_id := s.next_user_id + 1 })

/-- `add_movie(new_movie, user_id)` — note: two parameters, no rating.
Insert the movie if no row has its title, re-query the movie by title,
then insert a `UserMovie(user_id=..., movie_id=...)` association (rating
column left NULL) unless the pair already exists, in which case return
`False`.  The `none` result models the (unreachable) `AttributeError`
that `movie.movie_id` would raise if the re-query came back empty. -/
def add_movie (s : DB) (new_movie : MovieData) (user_id : Nat) :
    Option (Bool × DB) :=
  let s1 :=
    if (s.movies.find? (fun m => m.movie_name == new_movie.movie_name)).isSome
    then s
    else
      { s with
          movies := s.movies ++
            [{ movie_id := s.next_movie_id,
               movie_name := new_movie.movie_name,
               year := new_movie.year,
               director := new_movie.director,
               genre := new_movie.genre,
               poster_url := new_movie.poster_url,
               plot := new_movie.plot }],
          next_movie_id := s.next_movie_id + 1 }
  match s1.movies.find? (fun m => m.movie_name == new_movie.movie_name) with
  | none => none
  | some movie =>
      match s1.user_movies.find?
          (fun um => um.user_id == user_id && um.movie_id == movie.movie_id) with
      | some _ => some (false, s1)
      | none =>
          some (true,
            { s1 with
                user_movies := s1.user_movies ++
                  [{ id := s1.next_um_id,
                     user_id := user_id,
                     movie_id := movie.movie_id,
                     rating := none }],
                next_um_id := s1.next_um_id + 1 })

/-- `update_rating`: find the association of the pair; if present set its
`rating` column and return `True`, else fall through returning `None`
(modelled as `false`; both are falsy in Python). -/
def update_rating (s : DB) (user_id movie_id : Nat) (rating : Rat) : Bool × DB :=
  match s.user_movies.find?
      (fun um => um.user_id == user_id && um.movie_id == movie_id) with
  | none => (false, s)
  | some user_rating =>
      (true,
        { s with
            user_movies := s.user_movies.map
              (fun x => if x.id == user_rating.id
                        then { x with rating := some rating } else x) })

/-- The value returned by `delete_movie`: either the first-queried `Movie`
object (truthy) or Python `False`. -/
inductive DelRet where
  | movie (m : MovieRow)
  | falseRet
deriving DecidableEq, Repr

/-- Python truthiness of a `delete_movie` return value: an ORM object is
truthy, `False` is falsy. -/
def DelRet.truthy : DelRet → Bool
  | .movie _ => true
  | .falseRet => false

/-- `delete_movie(user_id, movie_id)`: the function first evaluates
`movie_name.movie_name` on the result of a query by `movie_id`, so a
missing `movies` row raises `AttributeError` (modelled by `none`).
Otherwise it deletes the association of the pair if present, then deletes
the `movies` row as well when no other association references the movie,
returning the queried `Movie` object; when the pair has no association it
returns `False` and leaves the state unchanged. -/
def delete_movie (s : DB) (user_id movie_id : Nat) : Option (DelRet × DB) :=
  match s.movies.find? (fun m => m.movie_id == movie_id) with
  | none => none
  | some movie_name =>
      match s.user_movies.find?
          (fun um => um.user_id == user_id && um.movie_id == movie_id) with
      | none => some (DelRet.falseRet, s)
      | some user_movie =>
          let remaining := s.user_movies.filter (fun x => x.id != user_movie.id)
          let other_users := remaining.filter (fun x => x.movie_id == movie_id)
          if other_users.isEmpty then
            some (DelRet.movie movie_name,
              { s with
                  user_movies := remaining,
                  movies := s.movies.filter (fun m => m.movie_id != movie_id) })
          else
            some (DelRet.movie movie_name, { s with user_movies := remaining })

end DataManagerSQLite

/-! ## app.py — the update-movie route handler

The POST branch of `update_movie(user_id, movie_id)` fetches the ORM
object, overwrites each field that is present and non-empty in the form,
then calls `data_manager.update_movie`, which re-queries the same object
by `movie_id` and commits the pending mutation, returning its (new)
`movie_name`.  The composite effect on the database is captured here. -/

/-- The optional fields of the update-movie HTML form; `none` stands for a
field that is absent or empty (`if 'f' in request.form and request.form['f']`). -/
structure MovieForm where
  movie_name : Option String
  director : Option String
  year : Option Int
  genre : Option String
  poster_url : Option String
deriving DecidableEq, Repr

/-- Overwrite the fields of a movie row that the form supplies. -/
def apply_form (m : MovieRow) (f : MovieForm) : MovieRow :=
  { m with
      movie_name := f.movie_name.getD m.movie_name,
      director := f.director.getD m.director,
      year := f.year.getD m.year,
      genre := f.genre.getD m.genre,
      poster_url := f.poster_url.getD m.poster_url }

/-- The POST branch of the `update_movie` route of `app.py`: fetch the
movie, apply the form fields, commit.  No uniqueness check of any kind is
performed on the new `movie_name`.  When the movie does not exist the
handler still passes `None` to `data_manager.update_movie`, which raises
`AttributeError` on `updated_movie.movie_id` (modelled by `none`). -/
def app_update_movie (s : DB) (movie_id : Nat) (f : MovieForm) :
    Option (String × DB) :=
  match DataManagerSQLite.get_movie s movie_id with
  | none => none
  | some m =>
      let m' := apply_form m f
      let committed := s.movies.map (fun x => if x.movie_id == movie_id then m' else x)
      some (m'.movie_name, { s with movies := committed })

/-! ## omdb_data_fetcher.py -/

/-- The parsed JSON body of a successful OMDb response, restricted to the
fields `get_new_movie_data` reads.  `ratings` is the `"Ratings"` list:
pairs of `"Source"` and `"Value"` strings (`none` when the key is absent
from the response).  `year` is taken as already parsed. -/
structure MovieInfo where
  title : String
  year : Int
  director : String
  genre : String
  poster : String
  plot : String
  ratings : Option (List (String × String))
deriving DecidableEq, Repr

/-- The outcome of one HTTP request attempt inside `_get_movie_info`:
a successful 2xx response with a parsed body (whose `notFound` flag is the
`"Movie not found!"` substring test), an `HTTPError` raised by
`raise_for_status` with the response's status code, or one of the other
caught exception classes. -/
inductive HTTPOutcome where
  | success (notFound : Bool) (info : MovieInfo)
  | httpError (status : Nat)
  | connError
  | jsonError
  | timeout
  | otherError
deriving DecidableEq, Repr

/-- What a run of `_get_movie_info` did: the returned dictionary (`none`
models the empty dictionary `{}`), how many HTTP requests were made, and
the successive `time.sleep` delays in seconds. -/
structure FetchTrace where
  result : Option MovieInfo
  requests : Nat
  delays : List Nat
deriving DecidableEq, Repr

/-- The `while retries < max_retries` loop of `_get_movie_info`, recursing
on the remaining fuel `max_retries - retries`.  Only an `HTTPError` whose
status code equals 500 increments `retries`, sleeps
`initial_delay * 2 ** (retries - 1)` seconds and loops; every other
outcome returns after the single attempt. -/
def fetchFrom (responses : Nat → HTTPOutcome) (initial_delay : Nat) :
    Nat → Nat → FetchTrace
  | _, 0 => { result := none, requests := 0, delays := [] }
  | retries, fuel + 1 =>
      match responses retries with
      | .success notFound info =>
          { result := if notFound then none else some info,
            requests := 1, delays := [] }
      | .httpError status =>
          if status == 500 then
            let delay := initial_delay * 2 ^ retries
            let t := fetchFrom responses initial_delay (retries + 1) fuel
            { result := t.result, requests := t.requests + 1,
              delays := delay :: t.delays }
          else
            { result := none, requests := 1, delays := [] }
      | _ => { result := none, requests := 1, delays := [] }

/-- `_get_movie_info(movie_name, max_retries=3, initial_delay=1)` run over
an abstract stream of per-attempt outcomes. -/
def get_movie_info_trace (responses : Nat → HTTPOutcome) : FetchTrace :=
  fetchFrom responses 1 0 3

/-- Parse the numerator of a `"7.3/10"`-style value the way
`float(rating_str.split("/")[0])` does, for plain decimal numerals;
`none` models a `ValueError`. -/
def parseRatingValue (v : String) : Option Rat :=
  let numerator := v.takeWhile (fun c => c != '/')
  let parts := numerator.splitOn "."
  match parts with
  | [w] => (w.toNat?).map (fun n => (n : Rat))
  | [w, frac] =>
      match w.toNat?, frac.toNat? with
      | some n, some fr =>
          some ((n : Rat) + (fr : Rat) / ((10 : Rat) ^ frac.length))
      | _, _ => none
  | _ => none

/-- The scan of the `"Ratings"` list inside `_get_movie_rating`: the first
entry whose source is `"Internet Movie Database"` yields its parsed value
(`0` on a parse failure); falling off the loop returns Python `None`. -/
def scanRatings : List (String × String) → Option Rat
  | [] => none
  | (src, val) :: rest =>
      if src == "Internet Movie Database" then
        some ((parseRatingValue val).getD 0)
      else scanRatings rest

/-- `_get_movie_rating(movie_info)`: iterating over `movie_info.get('Ratings')`
raises `TypeError` when the key is absent (the value is `None`), modelled
by `Except.error`; otherwise the scan result is returned. -/
def get_movie_rating (all_ratings : Option (List (String × String))) :
    Except Unit (Option Rat) :=
  match all_ratings with
  | none => Except.error ()
  | some l => Except.ok (scanRatings l)

/-- The attribute names the SQLAlchemy declarative constructor of
`data_models.Movie` accepts as keywords: the mapped columns and the
`user_movies` relationship.  Any other keyword raises `TypeError`. -/
def movieModelAttrs : List String :=
  ["movie_id", "movie_name", "year", "director", "genre", "poster_url",
   "plot", "user_movies"]

/-- The keyword arguments `get_new_movie_data` passes to `Movie(...)`. -/
def getNewMovieDataKwargs : List String :=
  ["movie_name", "rating", "year", "director", "genre", "poster_url", "plot"]

/-- A keyword-argument list is accepted by a declarative constructor
exactly when every keyword is an attribute of the model. -/
def ctorAccepts (attrs kwargs : List String) : Bool :=
  kwargs.all (fun k => attrs.contains k)

/-- `get_new_movie_data`: on an empty fetch result return `None`; otherwise
evaluate the keyword arguments (the rating extraction may raise `TypeError`,
caught by the handler below) and call `Movie(movie_name=..., rating=...,
...)`.  The constructor raises `TypeError` for any keyword that is not an
attribute of `Movie`; the `except TypeError` branch returns `None`. -/
def get_new_movie_data (fetched : Option MovieInfo) : Option MovieData :=
  match fetched with
  | none => none
  | some info =>
      match get_movie_rating info.ratings with
      | Except.error _ => none
      | Except.ok _rating =>
          if ctorAccepts movieModelAttrs getNewMovieDataKwargs then
            some { movie_name := info.title, year := info.year,
                   director := info.director, genre := info.genre,
                   poster_url := info.poster, plot := info.plot }
          else none

/-! ## Calling conventions of the add-movie operation

`DataManagerInterface.add_movie` declares three parameters besides `self`,
and every JSON/SSR route handler except the one in `app_ssr.py` invokes
`data_manager.add_movie` with three positional arguments, but the
`DataManagerSQLite` implementation accepts only two; a Python positional
call whose argument count differs from the parameter count raises
`TypeError` before the body runs. -/

/-- The parameters (besides `self`) of `DataManagerSQLite.add_movie`. -/
def add_movie_impl_params : List String := ["new_movie", "user_id"]

/-- The parameters (besides `self`) declared by
`DataManagerInterface.add_movie`. -/
def add_movie_interface_params : List String := ["movie", "user_id", "rating"]

/-- Argument count of `data_manager.add_movie(new_movie_obj, user_id, rating)`
in `app.py`. -/
def app_add_movie_call_args : Nat := 3

/-- Argument count of the same call in `app_csr.py`. -/
def app_csr_add_movie_call_args : Nat := 3

/-- Argument count of the same call in `api.py`. -/
def api_add_movie_call_args : Nat := 3

/-- Argument count of `data_manager.add_movie(new_movie_obj, user_id)`
in `app_ssr.py`. -/
def app_ssr_add_movie_call_args : Nat := 2

/-- A positional call raises `TypeError` when the argument count differs
from the parameter count. -/
def pyCallRaisesTypeError (params : List String) (argCount : Nat) : Bool :=
  argCount != params.length

/-! ## app_csr.py — JSON request-body validation -/

/-- A JSON value, restricted to the shapes the validation code inspects. -/
inductive JVal where
  | jstr (s : String)
  | jnum (q : Rat)
  | jbool (b : Bool)
  | jnull
deriving DecidableEq, Repr

/-- A parsed JSON object body. -/
abbrev JBody := List (String × JVal)

/-- Dictionary key lookup (`body['k']` / `'k' in body`). -/
def jlookup (b : JBody) (k : String) : Option JVal :=
  (b.find? (fun kv => kv.1 == k)).map (fun kv => kv.2)

/-- Python `isinstance(x, str)`. -/
def isStrV : JVal → Bool
  | .jstr _ => true
  | _ => false

/-- Python `isinstance(x, (float, int))` — `bool` is a subclass of `int`. -/
def isNumV : JVal → Bool
  | .jnum _ => true
  | .jbool _ => true
  | _ => false

/-- The numeric value Python comparisons use (`True == 1`, `False == 0`). -/
def numV : JVal → Rat
  | .jnum q => q
  | .jbool b => if b then 1 else 0
  | _ => 0

/-- How a POST request fares in a handler: rejected with a 400 by the
validation, aborted by an uncaught `KeyError` (turned into a 500 by the
registered error handler), or allowed through to the data fetcher and the
data-access layer. -/
inductive HandlerOutcome where
  | badRequest
  | keyError
  | reachesDataLayer
deriving DecidableEq, Repr

/-- The validation of the POST branch of `add_movie` in `app_csr.py`,
with Python's left-to-right short-circuit evaluation:
`not new_movie or not isinstance(new_movie['movie_name'], str) or
not isinstance(new_movie['rating'], (float, int)) or
10.0 < new_movie['rating'] < 0.0 or 'movie_name' not in new_movie or
'rating' not in new_movie`.  The subscripts run before the membership
tests, and the chained comparison `10.0 < r < 0.0` means
`10.0 < r and r < 0.0`. -/
def csr_add_movie_post (body : JBody) : HandlerOutcome :=
  if body.isEmpty then .badRequest
  else
    match jlookup body "movie_name" with
    | none => .keyError
    | some mv =>
        if ¬ isStrV mv then .badRequest
        else
          match jlookup body "rating" with
          | none => .keyError
          | some rv =>
              if ¬ isNumV rv then .badRequest
              else if 10 < numV rv ∧ numV rv < 0 then .badRequest
              else if (jlookup body "movie_name").isNone then .badRequest
              else if (jlookup body "rating").isNone then .badRequest
              else .reachesDataLayer

/-- The validation of the POST branch of `update_rating` in `app_csr.py`:
`not rating or 'rating' not in rating or
not isinstance(rating['rating'], (float, int)) or
rating['rating'] < 0.0 or rating['rating'] > 10.0` — here the membership
test precedes the subscript and the range check is written out. -/
def csr_update_rating_post (body : JBody) : HandlerOutcome :=
  if body.isEmpty then .badRequest
  else
    match jlookup body "rating" with
    | none => .badRequest
    | some rv =>
        if ¬ isNumV rv then .badRequest
        else if numV rv < 0 ∨ 10 < numV rv then .badRequest
        else .reachesDataLayer

/-! ## Invariant predicates and concrete states used by the theorems -/

/-- Each `(user_id, movie_id)` pair appears at most once in `user_movies`. -/
def PairOnce (s : DB) : Prop :=
  s.user_movies.Pairwise
    (fun a b => ¬ (a.user_id = b.user_id ∧ a.movie_id = b.movie_id))

/-- No two `movies` rows share a `movie_name`. -/
def TitlesUnique (s : DB) : Prop :=
  s.movies.Pairwise (fun a b => a.movie_name ≠ b.movie_name)

/-- The freshly created database. -/
def emptyDB : DB :=
  { users := [], movies := [], user_movies := [],
    next_user_id := 1, next_movie_id := 1, next_um_id := 1 }

/-- Movie metadata used in concrete scenarios. -/
def alphaData : MovieData :=
  { movie_name := "Alpha", year := 2000, director := "dA", genre := "gA",
    poster_url := "pA", plot := "plA" }

/-- A second movie's metadata. -/
def betaData : MovieData :=
  { movie_name := "Beta", year := 2001, director := "dB", genre := "gB",
    poster_url := "pB", plot := "plB" }

/-- An update-movie form that only renames the movie to `"Alpha"`. -/
def renameToAlpha : MovieForm :=
  { movie_name := some "Alpha", director := none, year := none,
    genre := none, poster_url := none }

/-- A state with one user who has the movie `"Gamma"` (id 7) on their list. -/
def oneUserOneMovieDB : DB :=
  { users := [{ user_id := 1, user_name := "ann", avatar_url := none }],
    movies := [{ movie_id := 7, movie_name := "Gamma", year := 1999,
                 director := "d", genre := "g", poster_url := "p", plot := "pl" }],
    user_movies := [{ id := 3, user_id := 1, movie_id := 7, rating := none }],
    next_user_id := 2, next_movie_id := 8, next_um_id := 4 }

/-- A state with two users where only user 1 has the movie `"Gamma"`. -/
def twoUsersOneMovieDB : DB :=
  { users := [{ user_id := 1, user_name := "ann", avatar_url := none },
              { user_id := 2, user_name := "bob", avatar_url := none }],
    movies := [{ movie_id := 7, movie_name := "Gamma", year := 1999,
                 director := "d", genre := "g", poster_url := "p", plot := "pl" }],
    user_movies := [{ id := 3, user_id := 1, movie_id := 7, rating := none }],
    next_user_id := 3, next_movie_id := 8, next_um_id := 4 }

/-- A state with one user `"alice"` and no movies. -/
def oneUserDB : DB :=
  { users := [{ user_id := 1, user_name := "alice", avatar_url := none }],
    movies := [], user_movies := [],
    next_user_id := 2, next_movie_id := 1, next_um_id := 1 }

/-- The metadata of the movie `"Gamma"` stored in `oneUserOneMovieDB`. -/
def gammaData : MovieData :=
  { movie_name := "Gamma", year := 1999, director := "d", genre := "g",
    poster_url := "p", plot := "pl" }

/-- The `movies` row of `"Gamma"` in `oneUserOneMovieDB`. -/
def gammaRow : MovieRow :=
  { movie_id := 7, movie_name := "Gamma", year := 1999, director := "d",
    genre := "g", poster_url := "p", plot := "pl" }

/-- The state reached from `emptyDB` after user 1 adds `"Alpha"`. -/
def dbAlpha : DB :=
  { users := [],
    movies := [{ movie_id := 1, movie_name := "Alpha", year := 2000,
                 director := "dA", genre := "gA", poster_url := "pA",
                 plot := "plA" }],
    user_movies := [{ id := 1, user_id := 1, movie_id := 1, rating := none }],
    next_user_id := 1, next_movie_id := 2, next_um_id := 2 }

/-- A well-formed OMDb response body for a successful fetch. -/
def inceptionInfo : MovieInfo :=
  { title := "Inception", year := 2010, director := "Christopher Nolan",
    genre := "Sci-Fi", poster := "poster-url", plot := "a heist in dreams",
    ratings := some [("Internet Movie Database", "8.8/10")] }

/-! ## Theorems -/

open DataManagerSQLite

/-- C4 — the repository's failure policy, evaluated on the code: `add_user`
with an existing name does return `False` and leaves the state unchanged,
but `delete_movie` on a `movie_id` with no `movies` row does NOT return a
falsy value: it evaluates `movie_name.movie_name` on the `None` query
result and raises `AttributeError` (the `none` outcome of the model). -/
theorem delete_movie_missing_movie_raises :
    add_user oneUserDB { user_name := "alice", avatar_url := none }
        = (false, oneUserDB) ∧
    delete_movie oneUserDB 1 99 = none := by
  constructor <;> rfl

/-- C5 — `DataManagerSQLite.add_movie` declares two parameters besides
`self`, while the route handlers of `app.py`, `app_csr.py` and `api.py`
(and the `DataManagerInterface` declaration) pass three positional
arguments including a rating, so every such call raises `TypeError`
before any association can be created; only the two-argument call of
`app_ssr.py` goes through. -/
theorem add_movie_rating_call_type_error :
    pyCallRaisesTypeError add_movie_impl_params app_add_movie_call_args = true ∧
    pyCallRaisesTypeError add_movie_impl_params app_csr_add_movie_call_args = true ∧
    pyCallRaisesTypeError add_movie_impl_params api_add_movie_call_args = true ∧
    add_movie_interface_params.length = 3 ∧
    pyCallRaisesTypeError add_movie_impl_params app_ssr_add_movie_call_args = false := by
  decide

/-- C7 — on every fetched movie dictionary, `get_new_movie_data` returns
`None`, never a populated `Movie`: the call `Movie(..., rating=...)`
passes the keyword `rating`, which is not an attribute of the `Movie`
model, so the declarative constructor raises `TypeError`, which the
function catches before returning `None`.  (When the `Ratings` key is
absent the earlier `TypeError` inside `_get_movie_rating` is caught the
same way.) -/
theorem get_new_movie_data_always_none (info : MovieInfo) :
    get_new_movie_data (some info) = none := by
  have hc : ctorAccepts movieModelAttrs getNewMovieDataKwargs = false := by decide
  cases h : info.ratings <;>
    simp [get_new_movie_data, get_movie_rating, h, hc]

/-- C9 — the JSON add-movie handler of `app_csr.py` does not reject
malformed bodies: a rating of 11 passes the vacuous chained comparison
`10.0 < rating < 0.0` and the request reaches the data fetcher and the
data-access layer, and a body missing `movie_name` raises `KeyError`
(a 500, not a 400).  The sibling update-rating handler, whose checks are
written correctly, does return 400 on an out-of-range rating. -/
theorem csr_add_movie_validation_broken :
    csr_add_movie_post
        [("movie_name", JVal.jstr "Inception"), ("rating", JVal.jnum 11)]
      = HandlerOutcome.reachesDataLayer ∧
    csr_add_movie_post [("rating", JVal.jnum 5)] = HandlerOutcome.keyError ∧
    csr_add_movie_post
        [("movie_name", JVal.jstr "Inception"), ("rating", JVal.jnum (-1))]
      = HandlerOutcome.reachesDataLayer ∧
    csr_update_rating_post [("rating", JVal.jnum 11)]
      = HandlerOutcome.badRequest := by
  refine ⟨?_, ?_, ?_, ?_⟩ <;> decide

/-- C6 (counterexample) — a persistent HTTP 503, a 5xx status, is not
retried at all: the client makes a single request, sleeps no delay and
returns the empty result, refuting the claim that every 5xx response is
retried with exponential backoff. -/
theorem omdb_503_not_retried :
    get_movie_info_trace (fun _ => HTTPOutcome.httpError 503)
      = { result := none, requests := 1, delays := [] } := by
  rfl

/-- C8 (counterexample) — a reachable sequence of operations that ends
with two `movies` rows named `"Alpha"`: register a user, add `"Alpha"`
and `"Beta"`, then rename `"Beta"` (movie id 2) to `"Alpha"` through the
update-movie route, which performs no title-uniqueness check. -/
theorem update_movie_breaks_title_uniqueness :
    (add_movie (add_user emptyDB { user_name := "ann", avatar_url := none }).2
        alphaData 1).bind
      (fun r1 => (add_movie r1.2 betaData 1).bind
        (fun r2 => (app_update_movie r2.2 2 renameToAlpha).map
          (fun r3 => r3.2.movies.map (fun m => m.movie_name))))
      = some ["Alpha", "Alpha"] := by
  rfl

/-- C1 — in a well-formed state where user `u` has an association with
movie `mid`, `delete_movie` deletes exactly that association row, keeps
the `movies` row if and only if some other association still references
`mid`, and returns the queried `Movie` object, a truthy value. -/
theorem delete_movie_cascade (s : DB) (u mid : Nat) (hWF : s.WF)
    (um : UserMovieRow)
    (hum : s.user_movies.find?
        (fun x => x.user_id == u && x.movie_id == mid) = some um) :
    ∃ mrow s', delete_movie s u mid = some (DelRet.movie mrow, s') ∧
      (DelRet.movie mrow).truthy = true ∧
      s'.user_movies = s.user_movies.filter (fun x => x.id != um.id) ∧
      ((∃ m ∈ s'.movies, m.movie_id = mid) ↔
        ∃ x ∈ s'.user_movies, x.movie_id = mid) := by
  obtain ⟨-, -, -, -, -, -, hFK⟩ := hWF
  have hmemum : um ∈ s.user_movies := List.mem_of_find?_eq_some hum
  have hpred := List.find?_some hum
  have humid : um.movie_id = mid := by
    simp only [Bool.and_eq_true, beq_iff_eq] at hpred
    exact hpred.2
  obtain ⟨m0, hm0mem, hm0id⟩ := hFK um hmemum
  obtain ⟨mrow, hmrow⟩ :
      ∃ mrow, s.movies.find? (fun m => m.movie_id == mid) = some mrow := by
    refine Option.isSome_iff_exists.mp ?_
    rw [List.find?_isSome]
    exact ⟨m0, hm0mem, by simp [hm0id, humid]⟩
  have hmrowid : mrow.movie_id = mid := by
    have := List.find?_some hmrow
    simpa using this
  cases hothers : ((s.user_movies.filter (fun x => x.id != um.id)).filter
      (fun x => x.movie_id == mid)).isEmpty with
  | true =>
      refine ⟨mrow,
        { s with
            user_movies := s.user_movies.filter (fun x => x.id != um.id),
            movies := s.movies.filter (fun m => m.movie_id != mid) },
        ?_, rfl, rfl, ?_⟩
      · simp only [delete_movie, hmrow, hum, hothers, if_true]
      · constructor
        · rintro ⟨m, hm, hmid⟩
          have hne := (List.mem_filter.mp hm).2
          rw [bne_iff_ne] at hne
          exact absurd hmid hne
        · rintro ⟨x, hx, hxid⟩
          exfalso
          have hxo : x ∈ (s.user_movies.filter (fun y => y.id != um.id)).filter
              (fun y => y.movie_id == mid) :=
            List.mem_filter.mpr ⟨hx, by simp [hxid]⟩
          rw [List.isEmpty_iff] at hothers
          rw [hothers] at hxo
          exact (List.not_mem_nil x) hxo
  | false =>
      refine ⟨mrow,
        { s with user_movies := s.user_movies.filter (fun x => x.id != um.id) },
        ?_, rfl, rfl, ?_⟩
      · simp only [delete_movie, hmrow, hum, hothers]
        simp
      · constructor
        · intro _
          have hne : ((s.user_movies.filter (fun x => x.id != um.id)).filter
              (fun x => x.movie_id == mid)) ≠ [] := by
            intro h
            rw [← List.isEmpty_iff] at h
            rw [hothers] at h
            exact Bool.false_ne_true h
          obtain ⟨x, hx⟩ := List.exists_mem_of_ne_nil _ hne
          have hx' := List.mem_filter.mp hx
          exact ⟨x, hx'.1, by simpa using hx'.2⟩
        · intro _
          exact ⟨mrow, List.mem_of_find?_eq_some hmrow, hmrowid⟩

/-- Witness for C1: in `oneUserOneMovieDB` the single user deletes movie 7;
the association disappears and, as the last reference, the movie row is
cascade-deleted. -/
theorem delete_movie_cascade_witness :
    ∃ mrow s', delete_movie oneUserOneMovieDB 1 7 = some (DelRet.movie mrow, s') ∧
      (DelRet.movie mrow).truthy = true ∧
      s'.user_movies = oneUserOneMovieDB.user_movies.filter (fun x => x.id != 3) ∧
      ((∃ m ∈ s'.movies, m.movie_id = 7) ↔
        ∃ x ∈ s'.user_movies, x.movie_id = 7) :=
  delete_movie_cascade oneUserOneMovieDB 1 7 (by unfold DB.WF; decide)
    { id := 3, user_id := 1, movie_id := 7, rating := none } (by decide)

/-- C2 — starting from a well-formed state with no movie titled
`nm.movie_name`, user `u1` adding the title and then a different user `u2`
adding it again yields: both calls return `True`, exactly one `movies` row
carries the title (the freshly inserted one), and exactly two associations
reference it — one for `u1` and one for `u2` (both with a `NULL` rating). -/
theorem add_movie_two_users (s : DB) (nm : MovieData) (u1 u2 : Nat)
    (hWF : s.WF) (hne : u1 ≠ u2)
    (htitle : ∀ m ∈ s.movies, m.movie_name ≠ nm.movie_name) :
    ∃ s1 s2,
      add_movie s nm u1 = some (true, s1) ∧
      add_movie s1 nm u2 = some (true, s2) ∧
      (s2.movies.filter (fun m => m.movie_name == nm.movie_name)).map
          (fun m => m.movie_id) = [s.next_movie_id] ∧
      (s2.user_movies.filter (fun x => x.movie_id == s.next_movie_id)).map
          (fun x => (x.user_id, x.rating))
        = [(u1, (none : Option Rat)), (u2, none)] := by
  obtain ⟨-, -, -, -, hbound, -, hFK⟩ := hWF
  have hfresh : ∀ um ∈ s.user_movies, um.movie_id ≠ s.next_movie_id := by
    intro um hum
    obtain ⟨m, hm, hmid⟩ := hFK um hum
    have hlt := hbound m hm
    omega
  have h1 : s.movies.find? (fun m => m.movie_name == nm.movie_name) = none :=
    List.find?_eq_none.mpr (fun m hm => by simp [htitle m hm])
  have hfilt0 : s.movies.filter (fun m => m.movie_name == nm.movie_name) = [] :=
    List.filter_eq_nil_iff.mpr (fun m hm => by simp [htitle m hm])
  have hfiltum : s.user_movies.filter
      (fun x => x.movie_id == s.next_movie_id) = [] :=
    List.filter_eq_nil_iff.mpr (fun x hx => by simp [hfresh x hx])
  have h4 : ∀ u : Nat, s.user_movies.find?
      (fun um => um.user_id == u && um.movie_id == s.next_movie_id) = none :=
    fun u => List.find?_eq_none.mpr (fun um hum => by simp [hfresh um hum])
  have hne' : (u1 == u2) = false := by simp [hne]
  refine
    ⟨{ s with
        movies := s.movies ++
          [{ movie_id := s.next_movie_id, movie_name := nm.movie_name,
             year := nm.year, director := nm.director, genre := nm.genre,
             poster_url := nm.poster_url, plot := nm.plot }],
        user_movies := s.user_movies ++
          [{ id := s.next_um_id, user_id := u1,
             movie_id := s.next_movie_id, rating := none }],
        next_movie_id := s.next_movie_id + 1,
        next_um_id := s.next_um_id + 1 },
      { s with
        movies := s.movies ++
          [{ movie_id := s.next_movie_id, movie_name := nm.movie_name,
             year := nm.year, director := nm.director, genre := nm.genre,
             poster_url := nm.poster_url, plot := nm.plot }],
        user_movies := (s.user_movies ++
          [{ id := s.next_um_id, user_id := u1,
             movie_id := s.next_movie_id, rating := none }]) ++
          [{ id := s.next_um_id + 1, user_id := u2,
             movie_id := s.next_movie_id, rating := none }],
        next_movie_id := s.next_movie_id + 1,
        next_um_id := s.next_um_id + 1 + 1 },
      ?_, ?_, ?_, ?_⟩
  · simp [add_movie, h1, List.find?_append, h4 u1]
  · simp [add_movie, h1, List.find?_append, h4 u2, hne']
  · simp [List.filter_append, hfilt0]
  · simp [List.filter_append, hfiltum]

/-- Witness for C2: from the fresh database, users 1 and 2 both add
`"Alpha"`; one movie row and two associations result. -/
theorem add_movie_two_users_witness :
    ∃ s1 s2,
      add_movie emptyDB alphaData 1 = some (true, s1) ∧
      add_movie s1 alphaData 2 = some (true, s2) ∧
      (s2.movies.filter (fun m => m.movie_name == alphaData.movie_name)).map
          (fun m => m.movie_id) = [emptyDB.next_movie_id] ∧
      (s2.user_movies.filter (fun x => x.movie_id == emptyDB.next_movie_id)).map
          (fun x => (x.user_id, x.rating)) = [(1, (none : Option Rat)), (2, none)] :=
  add_movie_two_users emptyDB alphaData 1 2 (by unfold DB.WF; decide)
    (by decide) (by decide)

/-- C3 — every mutating data-access-layer operation (and the update-movie
route) preserves the invariant that each `(user_id, movie_id)` pair
appears at most once in `user_movies`; and `add_movie` for a user who
already has an association with the movie returns `False` and leaves the
database unchanged, creating no second association row. -/
theorem pair_once_preserved :
    (∀ s nu, PairOnce s → PairOnce (add_user s nu).2) ∧
    (∀ s nm uid r, PairOnce s → add_movie s nm uid = some r → PairOnce r.2) ∧
    (∀ s uid mid rat, PairOnce s → PairOnce (update_rating s uid mid rat).2) ∧
    (∀ s mid f r, PairOnce s → app_update_movie s mid f = some r → PairOnce r.2) ∧
    (∀ s uid mid r, PairOnce s → delete_movie s uid mid = some r → PairOnce r.2) ∧
    (∀ s nm uid mv,
      s.movies.find? (fun m => m.movie_name == nm.movie_name) = some mv →
      (∃ um ∈ s.user_movies, um.user_id = uid ∧ um.movie_id = mv.movie_id) →
      add_movie s nm uid = some (false, s)) := by
  refine ⟨?_, ?_, ?_, ?_, ?_, ?_⟩
  · -- add_user never touches user_movies
    intro s nu h
    unfold add_user
    cases hfind : s.users.find? (fun u => u.user_name == nu.user_name) <;>
      exact h
  · -- add_movie inserts the association only when the pair is absent
    intro s nm uid r h hadd
    unfold add_movie at hadd
    cases hfind1 : s.movies.find? (fun m => m.movie_name == nm.movie_name) with
    | some mv =>
        simp only [hfind1, Option.isSome_some, if_true] at hadd
        cases hfind2 : s.user_movies.find?
            (fun um => um.user_id == uid && um.movie_id == mv.movie_id) with
        | some x =>
            rw [hfind2] at hadd
            simp only [Option.some.injEq] at hadd
            rw [← hadd]
            exact h
        | none =>
            rw [hfind2] at hadd
            simp only [Option.some.injEq] at hadd
            rw [← hadd]
            unfold PairOnce at h ⊢
            rw [List.pairwise_append]
            refine ⟨h, List.pairwise_singleton _ _, ?_⟩
            intro a ha b hb hab
            simp only [List.mem_singleton] at hb
            subst hb
            have := List.find?_eq_none.mp hfind2 a ha
            simp only [Bool.and_eq_true, beq_iff_eq, not_and] at this
            exact this (hab.1) hab.2
    | none =>
        simp only [hfind1, Option.isSome_none, Bool.false_eq_true, if_false] at hadd
        rw [List.find?_append, hfind1, Option.none_or] at hadd
        simp only [List.find?_cons, List.find?_nil, beq_self_eq_true] at hadd
        cases hfind2 : s.user_movies.find?
            (fun um => um.user_id == uid && um.movie_id == s.next_movie_id) with
        | some x =>
            rw [hfind2] at hadd
            simp only [Option.some.injEq] at hadd
            rw [← hadd]
            exact h
        | none =>
            rw [hfind2] at hadd
            simp only [Option.some.injEq] at hadd
            rw [← hadd]
            unfold PairOnce at h ⊢
            rw [List.pairwise_append]
            refine ⟨h, List.pairwise_singleton _ _, ?_⟩
            intro a ha b hb hab
            simp only [List.mem_singleton] at hb
            subst hb
            have := List.find?_eq_none.mp hfind2 a ha
            simp only [Bool.and_eq_true, beq_iff_eq, not_and] at this
            exact this (hab.1) hab.2
  · -- update_rating only mutates the rating column
    intro s uid mid rat h
    unfold update_rating
    cases hfind : s.user_movies.find?
        (fun um => um.user_id == uid && um.movie_id == mid) with
    | none => exact h
    | some ur =>
        unfold PairOnce at h ⊢
        rw [List.pairwise_map]
        refine List.Pairwise.imp ?_ h
        intro a b hab
        by_cases ha : (a.id == ur.id) = true <;>
          by_cases hb : (b.id == ur.id) = true <;>
          simp only [ha, hb, if_true, if_false, Bool.false_eq_true] <;>
          simpa using hab
  · -- the update-movie route only mutates the movies table
    intro s mid f r h happ
    unfold app_update_movie at happ
    cases hg : DataManagerSQLite.get_movie s mid with
    | none => rw [hg] at happ; cases happ
    | some m =>
        rw [hg] at happ
        simp only [Option.some.injEq] at happ
        rw [← happ]
        exact h
  · -- delete_movie only removes association rows
    intro s uid mid r h hdel
    unfold delete_movie at hdel
    cases h1 : s.movies.find? (fun m => m.movie_id == mid) with
    | none => rw [h1] at hdel; cases hdel
    | some mn =>
        rw [h1] at hdel
        cases h2 : s.user_movies.find?
            (fun um => um.user_id == uid && um.movie_id == mid) with
        | none =>
            rw [h2] at hdel
            simp only [Option.some.injEq] at hdel
            rw [← hdel]
            exact h
        | some umv =>
            rw [h2] at hdel
            by_cases hE : ((s.user_movies.filter (fun x => x.id != umv.id)).filter
                (fun x => x.movie_id == mid)).isEmpty = true <;>
              simp only [hE, if_true, Bool.false_eq_true, if_false,
                Option.some.injEq] at hdel <;>
              rw [← hdel] <;>
              exact h.sublist (List.filter_sublist _)
  · -- the collision case of add_movie
    intro s nm uid mv hmv hex
    obtain ⟨um, hum, hu, hm⟩ := hex
    have hsome : (s.user_movies.find?
        (fun x => x.user_id == uid && x.movie_id == mv.movie_id)).isSome :=
      List.find?_isSome.mpr ⟨um, hum, by simp [hu, hm]⟩
    obtain ⟨x, hx⟩ := Option.isSome_iff_exists.mp hsome
    unfold add_movie
    simp only [hmv, Option.isSome_some, if_true, hx]

/-- Witness for C3: adding a fresh user preserves the pair-uniqueness
invariant of `oneUserDB`, and re-adding `"Gamma"` for user 1, who already
has it, returns `False` and leaves `oneUserOneMovieDB` unchanged. -/
theorem pair_once_preserved_witness :
    PairOnce (add_user oneUserDB { user_name := "zoe", avatar_url := none }).2 ∧
    add_movie oneUserOneMovieDB gammaData 1 = some (false, oneUserOneMovieDB) :=
  ⟨pair_once_preserved.1 oneUserDB { user_name := "zoe", avatar_url := none }
      (by unfold PairOnce; decide),
   pair_once_preserved.2.2.2.2.2 oneUserOneMovieDB gammaData 1 gammaRow
      (by decide)
      ⟨{ id := 3, user_id := 1, movie_id := 7, rating := none },
        by decide, rfl, rfl⟩⟩

/-- Helper: the fetch loop makes at most `fuel` requests. -/
theorem fetchFrom_requests_le (responses : Nat → HTTPOutcome)
    (initial_delay : Nat) :
    ∀ fuel retries, (fetchFrom responses initial_delay retries fuel).requests ≤ fuel := by
  intro fuel
  induction fuel with
  | zero => intro retries; exact Nat.le_refl _
  | succ n ih =>
      intro retries
      unfold fetchFrom
      cases responses retries with
      | success nf info => exact Nat.le_add_left _ _
      | httpError st =>
          by_cases h5 : (st == 500) = true
          · simp only [h5, if_true]
            exact Nat.succ_le_succ (ih (retries + 1))
          · simp only [h5, Bool.false_eq_true, if_false]
            exact Nat.le_add_left _ _
      | connError => exact Nat.le_add_left _ _
      | jsonError => exact Nat.le_add_left _ _
      | timeout => exact Nat.le_add_left _ _
      | otherError => exact Nat.le_add_left _ _

/-- Helper: the delays slept by the fetch loop with `initial_delay = 1`
are successive powers of two starting at `2 ^ retries`. -/
theorem fetchFrom_delays_pow (responses : Nat → HTTPOutcome) :
    ∀ fuel retries, ∃ j,
      (fetchFrom responses 1 retries fuel).delays =
        (List.range j).map (fun i => 2 ^ (retries + i)) := by
  intro fuel
  induction fuel with
  | zero => intro retries; exact ⟨0, rfl⟩
  | succ n ih =>
      intro retries
      unfold fetchFrom
      cases responses retries with
      | success nf info => exact ⟨0, rfl⟩
      | httpError st =>
          by_cases h5 : (st == 500) = true
          · simp only [h5, if_true]
            obtain ⟨j, hj⟩ := ih (retries + 1)
            refine ⟨j + 1, ?_⟩
            rw [hj, List.range_succ_eq_map, List.map_cons, List.map_map]
            refine congrArg₂ List.cons (by simp) ?_
            refine List.map_congr_left ?_
            intro i _
            simp only [Function.comp_apply]
            congr 1
            omega
          · simp only [h5, Bool.false_eq_true, if_false]
            exact ⟨0, rfl⟩
      | connError => exact ⟨0, rfl⟩
      | jsonError => exact ⟨0, rfl⟩
      | timeout => exact ⟨0, rfl⟩
      | otherError => exact ⟨0, rfl⟩

/-- C6 (amended) — the metadata client retries only on HTTP status exactly
500, not on every 5xx: a persistent 500 is retried up to the fixed attempt
count of 3 with the delay doubling each retry (1, 2, 4 seconds); an
`HTTPError` with any other status, and every other failure (network error,
timeout, malformed response) as well as a "movie not found" body, returns
the empty result after a single request without retrying; and in every run
the attempt count is at most 3 and the delays slept are successive
doublings of the initial one-second delay. -/
theorem omdb_retry_spec :
    get_movie_info_trace (fun _ => HTTPOutcome.httpError 500)
      = { result := none, requests := 3, delays := [1, 2, 4] } ∧
    (∀ responses s, s ≠ 500 →
      responses 0 = HTTPOutcome.httpError s →
      get_movie_info_trace responses
        = { result := none, requests := 1, delays := [] }) ∧
    (∀ responses, (responses 0 = HTTPOutcome.connError ∨
        responses 0 = HTTPOutcome.jsonError ∨
        responses 0 = HTTPOutcome.timeout ∨
        responses 0 = HTTPOutcome.otherError) →
      get_movie_info_trace responses
        = { result := none, requests := 1, delays := [] }) ∧
    (∀ responses nf info, responses 0 = HTTPOutcome.success nf info →
      get_movie_info_trace responses
        = { result := if nf then none else some info,
            requests := 1, delays := [] }) ∧
    (∀ responses, (get_movie_info_trace responses).requests ≤ 3) ∧
    (∀ responses, ∃ j, (get_movie_info_trace responses).delays
        = (List.range j).map (fun i => 2 ^ i)) := by
  refine ⟨by rfl, ?_, ?_, ?_, ?_, ?_⟩
  · intro responses s hs h0
    have hs' : (s == 500) = false := by simp [hs]
    unfold get_movie_info_trace fetchFrom
    rw [h0]
    simp [hs']
  · intro responses h0
    unfold get_movie_info_trace fetchFrom
    rcases h0 with h | h | h | h <;> rw [h]
  · intro responses nf info h0
    unfold get_movie_info_trace fetchFrom
    rw [h0]
  · intro responses
    exact fetchFrom_requests_le responses 1 3 0
  · intro responses
    obtain ⟨j, hj⟩ := fetchFrom_delays_pow responses 3 0
    refine ⟨j, ?_⟩
    rw [get_movie_info_trace, hj]
    exact List.map_congr_left (fun i _ => by rw [Nat.zero_add])

/-- Witness for C6 (amended): a persistent HTTP 502 — a non-500 status —
produces a single request, no sleep and the empty result. -/
theorem omdb_retry_spec_witness :
    get_movie_info_trace (fun _ => HTTPOutcome.httpError 502)
      = { result := none, requests := 1, delays := [] } :=
  omdb_retry_spec.2.1 (fun _ => HTTPOutcome.httpError 502) 502
    (by decide) rfl

/-- C8 (amended) — title uniqueness is preserved by `add_user`,
`add_movie` (which never inserts a second row with an existing title),
`update_rating` and `delete_movie`, and by the update-movie route when the
form does not set `movie_name`; the route performs no uniqueness check, so
a rename to an existing title (the counterexample) is the one way to
produce duplicate titles. -/
theorem titles_unique_preserved :
    (∀ s nu, TitlesUnique s → TitlesUnique (add_user s nu).2) ∧
    (∀ s nm uid r, TitlesUnique s → add_movie s nm uid = some r →
      TitlesUnique r.2) ∧
    (∀ s uid mid rat, TitlesUnique s →
      TitlesUnique (update_rating s uid mid rat).2) ∧
    (∀ s uid mid r, TitlesUnique s → delete_movie s uid mid = some r →
      TitlesUnique r.2) ∧
    (∀ s mid f r, s.movies.Pairwise (fun a b => a.movie_id ≠ b.movie_id) →
      TitlesUnique s → f.movie_name = none →
      app_update_movie s mid f = some r → TitlesUnique r.2) := by
  refine ⟨?_, ?_, ?_, ?_, ?_⟩
  · -- add_user never touches movies
    intro s nu h
    unfold add_user
    cases hfind : s.users.find? (fun u => u.user_name == nu.user_name) <;>
      exact h
  · -- add_movie inserts the movie row only when no row has its title
    intro s nm uid r h hadd
    unfold add_movie at hadd
    cases hfind1 : s.movies.find? (fun m => m.movie_name == nm.movie_name) with
    | some mv =>
        simp only [hfind1, Option.isSome_some, if_true] at hadd
        cases hfind2 : s.user_movies.find?
            (fun um => um.user_id == uid && um.movie_id == mv.movie_id) with
        | some x =>
            rw [hfind2] at hadd
            simp only [Option.some.injEq] at hadd
            rw [← hadd]; exact h
        | none =>
            rw [hfind2] at hadd
            simp only [Option.some.injEq] at hadd
            rw [← hadd]; exact h
    | none =>
        simp only [hfind1, Option.isSome_none, Bool.false_eq_true, if_false] at hadd
        rw [List.find?_append, hfind1, Option.none_or] at hadd
        simp only [List.find?_cons, List.find?_nil, beq_self_eq_true] at hadd
        have hins : TitlesUnique
            { s with
                movies := s.movies ++
                  [{ movie_id := s.next_movie_id, movie_name := nm.movie_name,
                     year := nm.year, director := nm.director, genre := nm.genre,
                     poster_url := nm.poster_url, plot := nm.plot }],
                next_movie_id := s.next_movie_id + 1 } := by
          unfold TitlesUnique at h ⊢
          rw [List.pairwise_append]
          refine ⟨h, List.pairwise_singleton _ _, ?_⟩
          intro a ha b hb
          simp only [List.mem_singleton] at hb
          subst hb
          have := List.find?_eq_none.mp hfind1 a ha
          simpa using this
        cases hfind2 : s.user_movies.find?
            (fun um => um.user_id == uid && um.movie_id == s.next_movie_id) with
        | some x =>
            rw [hfind2] at hadd
            simp only [Option.some.injEq] at hadd
            rw [← hadd]; exact hins
        | none =>
            rw [hfind2] at hadd
            simp only [Option.some.injEq] at hadd
            rw [← hadd]; exact hins
  · -- update_rating never touches movies
    intro s uid mid rat h
    unfold update_rating
    cases hfind : s.user_movies.find?
        (fun um => um.user_id == uid && um.movie_id == mid) with
    | none => exact h
    | some ur => exact h
  · -- delete_movie removes movie rows, never renames them
    intro s uid mid r h hdel
    unfold delete_movie at hdel
    cases h1 : s.movies.find? (fun m => m.movie_id == mid) with
    | none => rw [h1] at hdel; cases hdel
    | some mn =>
        rw [h1] at hdel
        cases h2 : s.user_movies.find?
            (fun um => um.user_id == uid && um.movie_id == mid) with
        | none =>
            rw [h2] at hdel
            simp only [Option.some.injEq] at hdel
            rw [← hdel]; exact h
        | some umv =>
            rw [h2] at hdel
            by_cases hE : ((s.user_movies.filter (fun x => x.id != umv.id)).filter
                (fun x => x.movie_id == mid)).isEmpty = true <;>
              simp only [hE, if_true, Bool.false_eq_true, if_false,
                Option.some.injEq] at hdel <;>
              rw [← hdel]
            · exact h.sublist (List.filter_sublist _)
            · exact h
  · -- the update-movie route with no movie_name in the form keeps all titles
    intro s mid f r hids h hname happ
    unfold app_update_movie at happ
    cases hg : DataManagerSQLite.get_movie s mid with
    | none => rw [hg] at happ; cases happ
    | some m =>
        rw [hg] at happ
        simp only [Option.some.injEq] at happ
        rw [← happ]
        have hmmem : m ∈ s.movies := List.mem_of_find?_eq_some hg
        have hmid : m.movie_id = mid := by
          have := List.find?_some hg
          simpa using this
        have hname' : (apply_form m f).movie_name = m.movie_name := by
          simp [apply_form, hname]
        have hpoint : ∀ x ∈ s.movies,
            (if x.movie_id == mid then apply_form m f else x).movie_name
              = x.movie_name := by
          intro x hx
          by_cases hxm : (x.movie_id == mid) = true
          · have hxid : x.movie_id = mid := by simpa using hxm
            have hxeq : x = m := by
              by_contra hne
              have hsym : Symmetric (fun a b : MovieRow => a.movie_id ≠ b.movie_id) :=
                fun a b hab => Ne.symm hab
              exact hids.forall hsym hx hmmem hne (hxid.trans hmid.symm)
            simp [hxm, hxeq, hmid, hname']
          · simp [hxm]
        unfold TitlesUnique at h ⊢
        rw [List.pairwise_map]
        refine List.Pairwise.imp_of_mem ?_ h
        intro a b ha hb hab
        rw [hpoint a ha, hpoint b hb]
        exact hab

/-- Witness for C8 (amended): adding `"Alpha"` to the empty database
preserves title uniqueness, as does an update-movie form that leaves
`movie_name` untouched. -/
theorem titles_unique_preserved_witness :
    TitlesUnique dbAlpha ∧
    TitlesUnique
      { dbAlpha with
          movies := [{ movie_id := 1, movie_name := "Alpha", year := 2000,
                       director := "dX", genre := "gA", poster_url := "pA",
                       plot := "plA" }] } :=
  ⟨titles_unique_preserved.2.1 emptyDB alphaData 1 (true, dbAlpha)
      (by unfold TitlesUnique; decide) (by rfl),
   titles_unique_preserved.2.2.2.2 dbAlpha 1
      { movie_name := none, director := some "dX", year := none,
        genre := none, poster_url := none }
      ("Alpha",
        { dbAlpha with
            movies := [{ movie_id := 1, movie_name := "Alpha", year := 2000,
                         director := "dX", genre := "gA", poster_url := "pA",
                         plot := "plA" }] })
      (by decide) (by unfold TitlesUnique; decide) rfl (by rfl)⟩

/-- C10 — `DataManagerSQLite.add_movie` takes no rating argument (see its
two-parameter signature) and creates every new association with the
`rating` column NULL: any association present after `add_movie` either
predates the call or has rating `none`; `add_user` and the update-movie
route leave `user_movies` untouched and `delete_movie` only removes rows,
so a non-NULL rating can only ever be introduced by `update_rating`. -/
theorem add_movie_rating_none :
    (∀ s nm uid r, add_movie s nm uid = some r →
      ∀ um ∈ r.2.user_movies, um ∈ s.user_movies ∨ um.rating = none) ∧
    (∀ s nu, (add_user s nu).2.user_movies = s.user_movies) ∧
    (∀ s mid f r, app_update_movie s mid f = some r →
      r.2.user_movies = s.user_movies) ∧
    (∀ s uid mid r, delete_movie s uid mid = some r →
      ∀ um ∈ r.2.user_movies, um ∈ s.user_movies) := by
  refine ⟨?_, ?_, ?_, ?_⟩
  · intro s nm uid r hadd um hum
    unfold add_movie at hadd
    cases hfind1 : s.movies.find? (fun m => m.movie_name == nm.movie_name) with
    | some mv =>
        simp only [hfind1, Option.isSome_some, if_true] at hadd
        cases hfind2 : s.user_movies.find?
            (fun x => x.user_id == uid && x.movie_id == mv.movie_id) with
        | some x =>
            rw [hfind2] at hadd
            simp only [Option.some.injEq] at hadd
            rw [← hadd] at hum
            exact Or.inl hum
        | none =>
            rw [hfind2] at hadd
            simp only [Option.some.injEq] at hadd
            rw [← hadd] at hum
            rcases List.mem_append.mp hum with hold | hnew
            · exact Or.inl hold
            · simp only [List.mem_singleton] at hnew
              subst hnew
              exact Or.inr rfl
    | none =>
        simp only [hfind1, Option.isSome_none, Bool.false_eq_true, if_false] at hadd
        rw [List.find?_append, hfind1, Option.none_or] at hadd
        simp only [List.find?_cons, List.find?_nil, beq_self_eq_true] at hadd
        cases hfind2 : s.user_movies.find?
            (fun x => x.user_id == uid && x.movie_id == s.next_movie_id) with
        | some x =>
            rw [hfind2] at hadd
            simp only [Option.some.injEq] at hadd
            rw [← hadd] at hum
            exact Or.inl hum
        | none =>
            rw [hfind2] at hadd
            simp only [Option.some.injEq] at hadd
            rw [← hadd] at hum
            rcases List.mem_append.mp hum with hold | hnew
            · exact Or.inl hold
            · simp only [List.mem_singleton] at hnew
              subst hnew
              exact Or.inr rfl
  · intro s nu
    unfold add_user
    cases hfind : s.users.find? (fun u => u.user_name == nu.user_name) <;> rfl
  · intro s mid f r happ
    unfold app_update_movie at happ
    cases hg : DataManagerSQLite.get_movie s mid with
    | none => rw [hg] at happ; cases happ
    | some m =>
        rw [hg] at happ
        simp only [Option.some.injEq] at happ
        rw [← happ]
  · intro s uid mid r hdel um hum
    unfold delete_movie at hdel
    cases h1 : s.movies.find? (fun m => m.movie_id == mid) with
    | none => rw [h1] at hdel; cases hdel
    | some mn =>
        rw [h1] at hdel
        cases h2 : s.user_movies.find?
            (fun x => x.user_id == uid && x.movie_id == mid) with
        | none =>
            rw [h2] at hdel
            simp only [Option.some.injEq] at hdel
            rw [← hdel] at hum
            exact hum
        | some umv =>
            rw [h2] at hdel
            by_cases hE : ((s.user_movies.filter (fun x => x.id != umv.id)).filter
                (fun x => x.movie_id == mid)).isEmpty = true <;>
              simp only [hE, if_true, Bool.false_eq_true, if_false,
                Option.some.injEq] at hdel <;>
              rw [← hdel] at hum <;>
              exact (List.mem_filter.mp hum).1

/-- Witness for C10: the association created when user 1 adds `"Alpha"` to
the empty database has rating `none`. -/
theorem add_movie_rating_none_witness :
    ({ id := 1, user_id := 1, movie_id := 1, rating := none } : UserMovieRow)
        ∈ emptyDB.user_movies ∨
    ({ id := 1, user_id := 1, movie_id := 1, rating := none } : UserMovieRow).rating
        = none :=
  add_movie_rating_none.1 emptyDB alphaData 1 (true, dbAlpha) (by rfl)
    { id := 1, user_id := 1, movie_id := 1, rating := none } (by decide)

end MoviWeb
